import Mathlib

/-!
Shallow embedding of the `ping-rs` ICMP echo engine, covering the packet
codec (`src/linux_ping/mod.rs`, `icmp_header.rs`, `v4.rs`, `v6.rs`), the
reply/error classifier (`src/windows_ping.rs`), the orchestrators
(`send_ping` on both platforms) and the raw-socket completion bridge
(`src/linux_ping/ping_future.rs`).

Bytes are `Nat` values below 256, buffers are `List Nat`; 16- and 32-bit
machine arithmetic is `Nat` with explicit `% 2^w` where the source wraps.
OS interactions (socket and Win32 calls) are abstracted by oracle
structures whose fields give the outcome of each call, and the sequence of
externally visible actions is recorded in an effect trace.
-/

namespace PingRs

-- `IpStatus` constants from `src/lib.rs` (`IpStatus` module).
namespace IpStatus

def Success : Nat := 0

def BadHeader : Nat := 11000 + 42

end IpStatus

/-- `PingError` from the crate root, variants per spec §3 and their uses in
`src/linux_ping/mod.rs` and `src/windows_ping.rs`. -/
inductive PingError where
  | BadParameter (reason : String)
  | OsError (code : Nat) (message : String)
  | IpError (status : Nat)
  | TimedOut
  | IoPending
  | DataSizeTooBig (maxAllowed : Nat)
  deriving DecidableEq, Repr

/-- `PingOptions` from the crate root: `{ ttl: u8, dont_fragment: bool }`. -/
structure PingOptions where
  ttl : Nat
  dont_fragment : Bool
  deriving DecidableEq, Repr

/-- `PingReply` from the crate root: address and round-trip time.  The IP
address is abstracted to a `Nat` identifier. -/
structure PingReply where
  address : Nat
  rtt : Nat
  deriving DecidableEq, Repr

/-- `ICMP_HEADER_SIZE` from `src/linux_ping/icmp_header.rs`. -/
def ICMP_HEADER_SIZE : Nat := 16

/-- `TOKEN_SIZE` from `src/linux_ping/mod.rs`. -/
def TOKEN_SIZE : Nat := 24

/-- The carry-folding loop of `write_checksum` (`src/linux_ping/mod.rs`
lines 181-183) with an explicit iteration bound: while the sum has bits at
16 and above, add the high part back into the low 16 bits.  Each iteration
strictly decreases the sum, so the initial sum itself bounds the number of
iterations; `fold16` below supplies that bound, and `fold16_loop` proves
the resulting function satisfies the loop's equation. -/
def fold16Go : Nat → Nat → Nat
  | _, 0 => 0
  | 0, sum => sum
  | fuel + 1, sum =>
    if sum < 65536 then sum
    else fold16Go fuel (sum % 65536 + sum / 65536)

/-- The carry-folding loop of `write_checksum`: fold the bits at 16 and
above back into the low 16 bits until none remain. -/
def fold16 (sum : Nat) : Nat := fold16Go sum sum

/-- The 16-bit big-endian word sum of `write_checksum`
(`src/linux_ping/mod.rs` lines 172-179): words are taken from consecutive
byte pairs, an odd trailing byte is the high half of a final word. -/
def sumWords : List Nat → Nat
  | [] => 0
  | [a] => a * 256
  | a :: b :: rest => a * 256 + b + sumWords rest

/-- `IcmpEchoHeader::set_checksum` storage (`src/linux_ping/icmp_header.rs`):
the 16-bit checksum is stored big-endian at byte offsets 2 and 3. -/
def setChecksumBytes (buffer : List Nat) (c : Nat) : List Nat :=
  (buffer.set 2 (c / 256 % 256)).set 3 (c % 256)

/-- `write_checksum` from `src/linux_ping/mod.rs` lines 171-188: sum the
16-bit words of the whole buffer (including whatever currently sits in the
checksum field), fold the carries, complement, and store the result in the
checksum field.  The running sum is a `u32` with wrapping adds. -/
def write_checksum (buffer : List Nat) : List Nat :=
  let s := fold16 (sumWords buffer % 4294967296)
  setChecksumBytes buffer (65535 - s)

/-- Big-endian 16-bit store of `IcmpEchoHeader::set_ident` /
`set_seq` at a given byte offset. -/
def setBe16 (buffer : List Nat) (off v : Nat) : List Nat :=
  (buffer.set off (v / 256 % 256)).set (off + 1) (v % 256)

/-- Store the 8 timestamp bytes at offsets 8..15
(`IcmpEchoHeader::set_timestamp`; the `f64` big-endian byte image is taken
as an opaque 8-byte list). -/
def setTimestampBytes (buffer : List Nat) (ts : List Nat) : List Nat :=
  (List.range 8).foldl (fun b i => b.set (8 + i) (ts.getD i 0)) buffer

/-- `make_data::<P>` from `src/linux_ping/mod.rs` lines 146-161:
reject payloads above `TOKEN_SIZE`, allocate a zeroed buffer of
`ICMP_HEADER_SIZE + data.len()`, copy the payload after the header, set the
request type and code, and write the checksum (the checksum field is still
zero at this point). -/
def make_data (reqType reqCode : Nat) (data : List Nat) :
    Except PingError (List Nat) :=
  if data.length > TOKEN_SIZE then .error (.DataSizeTooBig TOKEN_SIZE)
  else
    let buffer := List.replicate ICMP_HEADER_SIZE 0 ++ data
    let buffer := (buffer.set 0 reqType).set 1 reqCode
    .ok (write_checksum buffer)

/-- `set_request_data` from `src/linux_ping/mod.rs` lines 163-169: store
the identifier, sequence number and send timestamp into the header, then
recompute the checksum.  Note that the checksum field is NOT zeroed first:
`write_checksum` sums the buffer with the previous checksum still in
place. -/
def set_request_data (data : List Nat) (ident sequence : Nat)
    (tsBytes : List Nat) : List Nat :=
  let b := setBe16 data 4 ident
  let b := setBe16 b 6 sequence
  let b := setTimestampBytes b tsBytes
  write_checksum b

/-- The receiver-side checksum verification described by the spec (§4.4 /
§8): fold the 16-bit big-endian one's-complement sum of the whole buffer,
with the transmitted checksum in place.  A validly checksummed buffer folds
to `0xFFFF`. -/
def verifyFold (buffer : List Nat) : Nat :=
  fold16 (sumWords buffer % 4294967296)

/-- The `IcmpEchoHeader` view of a byte buffer
(`src/linux_ping/icmp_header.rs`): type and code bytes, then big-endian
checksum, identifier and sequence, then 8 timestamp bytes.  `rtype` stands
for the raw field `r#type`. -/
structure IcmpEchoHeader where
  rtype : Nat
  code : Nat
  checksum : Nat
  ident : Nat
  seq : Nat
  tsBytes : List Nat
  deriving DecidableEq, Repr

/-- `IcmpEchoHeader::get_ref` (`src/linux_ping/icmp_header.rs`): reinterpret
the front of a byte buffer as an echo header, reading the multi-byte fields
big-endian. -/
def IcmpEchoHeader.get_ref (buf : List Nat) : IcmpEchoHeader :=
  { rtype := buf.getD 0 0
    code := buf.getD 1 0
    checksum := buf.getD 2 0 * 256 + buf.getD 3 0
    ident := buf.getD 4 0 * 256 + buf.getD 5 0
    seq := buf.getD 6 0 * 256 + buf.getD 7 0
    tsBytes := (buf.drop 8).take 8 }

/-- `ICMP_REPLY_HEADER_SIZE` from `src/linux_ping/v4.rs`: size of the outer
IPv4 header preceding the echo reply. -/
def ICMP_REPLY_HEADER_SIZE : Nat := 20

/-- `ICMP_PROTOCOL` from `src/linux_ping/v4.rs`. -/
def ICMP_PROTOCOL : Nat := 1

/-- `<Ipv4Addr as Proto>::get_reply_header` from `src/linux_ping/v4.rs`
lines 33-47: interpret the reply as an outer IPv4 header (version nibble
and protocol byte at offsets 0 and 9) followed by the echo header at offset
20; reject short buffers, a version nibble other than 4, or a protocol
other than ICMP(1) with `IpError(BadHeader)`. -/
def ipv4_get_reply_header (reply : List Nat) :
    Except PingError IcmpEchoHeader :=
  let version := reply.getD 0 0 / 16
  let headerSize := reply.getD 0 0 % 16
  let protocol := reply.getD 9 0
  if reply.length < ICMP_REPLY_HEADER_SIZE + ICMP_HEADER_SIZE
      ∨ version ≠ 4
      ∨ reply.length < headerSize
      ∨ protocol ≠ ICMP_PROTOCOL then
    .error (.IpError IpStatus.BadHeader)
  else
    .ok (IcmpEchoHeader.get_ref (reply.drop ICMP_REPLY_HEADER_SIZE))

/-- `<Ipv6Addr as Proto>::get_reply_header` from `src/linux_ping/v6.rs`:
only a minimum-length check; the payload is the echo header itself. -/
def ipv6_get_reply_header (reply : List Nat) :
    Except PingError IcmpEchoHeader :=
  if reply.length < ICMP_HEADER_SIZE then .error (.IpError IpStatus.BadHeader)
  else .ok (IcmpEchoHeader.get_ref reply)

/-- The decode step actually performed by `wait_reply`
(`src/linux_ping/mod.rs` lines 98-99): the `P::get_reply_header` call is
commented out, so the echo header is read directly from the start of the
receive buffer and only its type and code are compared against the
family's expected reply values. -/
def wait_reply_decode (replyType replyCode : Nat) (buf : List Nat) :
    Except PingError IcmpEchoHeader :=
  let header := IcmpEchoHeader.get_ref buf
  if header.rtype ≠ replyType ∨ header.code ≠ replyCode then
    .error (.IpError IpStatus.BadHeader)
  else
    .ok header

/-- `MTU` from `src/linux_ping/mod.rs`: the fixed receive buffer size. -/
def MTU : Nat := 1500

-- Reply/error classifier (`src/windows_ping.rs`).

/-- `IP_STATUS_BASE` (Win32 constant, 11000). -/
def IP_STATUS_BASE : Nat := 11000

/-- `ERROR_IO_PENDING` (Win32 constant, 997). -/
def ERROR_IO_PENDING : Nat := 997

/-- `ping_reply_error` from `src/windows_ping.rs` lines 135-148.  The
system-message facility (`FormatMessageA`) is abstracted by `fmt`, which
returns `none` when no message resolves (the `r == 0` branch), in which
case the synthesized text is used. -/
def ping_reply_error (fmt : Nat → Option String) (status : Nat) : PingError :=
  if status < IP_STATUS_BASE then
    .OsError status
      (match fmt status with
        | none => "Ping failed (" ++ toString status ++ ")"
        | some s => s)
  else
    .IpError status

/-- `parse_raw_reply_status` from `src/windows_ping.rs` lines 119-133.  The
result is wrapped in `Option`: `none` models the `panic!("Dev bug!")`
branch reached when `ping_reply_error` produces anything other than
`OsError` or `IpError`. -/
def parse_raw_reply_status (fmt : Nat → Option String) (status : Nat) :
    Option (Except PingError Unit) :=
  if status = 0 then some (.ok ())
  else
    match ping_reply_error fmt status with
    | .OsError c m => some (.error (.OsError c m))
    | .IpError v =>
        if v = 0 then some (.ok ())
        else some (.error (ping_reply_error fmt v))
    | _ => none

-- Externally visible actions taken by the orchestrators.  The traces make
-- "no socket/handle is created" and "nothing reaches the transport"
-- statable.

/-- One externally visible OS action of either orchestrator. -/
inductive Effect where
  | handleCreated
  | echoSent (ttl flags timeoutMs : Nat) (payload : List Nat)
  | socketCreated
  | ttlSet (v : Nat)
  | readTimeoutSet (t : Nat)
  | nonblockingSet
  | packetSent (payload : List Nat)
  deriving DecidableEq, Repr

/-- `PingRawReply` from `src/windows_ping.rs`: the decoded fields of the
native reply buffer. -/
structure PingRawReply where
  address : Nat
  status : Nat
  rtt : Nat
  deriving DecidableEq, Repr

/-- Oracle for the Win32 calls made by `src/windows_ping.rs`: the result of
`IcmpCreateFile`/`Icmp6CreateFile` (error code on failure), the return
value of the native send and the accompanying `GetLastError`, the decoded
reply the native call wrote, and the system-message resolver. -/
structure WinOS where
  createFile : Except Nat Unit
  sendResult : Nat
  lastError : Nat
  rawReply : PingRawReply
  fmt : Nat → Option String

/-- `MAX_BUFFER_SIZE` from `src/windows_ping.rs` line 80. -/
def MAX_BUFFER_SIZE : Nat := 65500

/-- `DONT_FRAGMENT_FLAG` from `src/windows_ping.rs` line 95. -/
def DONT_FRAGMENT_FLAG : Nat := 2

/-- `validate_buffer` from `src/windows_ping.rs` lines 81-83: payloads
above `MAX_BUFFER_SIZE` are rejected with `BadParameter("buffer")`. -/
def validate_buffer (buffer : List Nat) : Except PingError (List Nat) :=
  if buffer.length > MAX_BUFFER_SIZE then .error (.BadParameter "buffer")
  else .ok buffer

/-- `initialize_icmp_handle` from `src/windows_ping.rs` lines 85-93: create
the native echo handle, mapping a failure code through
`ping_reply_error`. -/
def initialize_icmp_handle (os : WinOS) :
    Except PingError Unit × List Effect :=
  match os.createFile with
  | .error e => (.error (ping_reply_error os.fmt e), [])
  | .ok _ => (.ok (), [.handleCreated])

/-- `echo` from `src/windows_ping.rs` lines 96-117: build the
`IP_OPTION_INFORMATION` (TTL defaulting to 128, the don't-fragment flag
only when requested), invoke the native send, and classify a zero return
through `GetLastError` (`ERROR_IO_PENDING` becomes the internal
`IoPending`). -/
def echo (os : WinOS) (buffer : List Nat) (timeoutMs : Nat)
    (options : Option PingOptions) : Except PingError Unit × List Effect :=
  let ttl := (options.map (·.ttl)).getD 128
  let flags :=
    ((options.bind fun o =>
        if o.dont_fragment then some DONT_FRAGMENT_FLAG else none)).getD 0
  let eff := [Effect.echoSent ttl flags timeoutMs buffer]
  if os.sendResult = 0 then
    if os.lastError = ERROR_IO_PENDING then (.error .IoPending, eff)
    else (.error (ping_reply_error os.fmt os.lastError), eff)
  else (.ok (), eff)

/-- `send_ping` from `src/windows_ping.rs` lines 17-24: validate the
buffer, create the handle, run the native echo, and convert the raw reply
via `parse_raw_reply_status` (`impl Into<PingApiOutput> for PingRawReply`).
`none` in the first component models a panic. -/
def windows_send_ping (os : WinOS) (timeoutMs : Nat) (data : List Nat)
    (options : Option PingOptions) :
    Option (Except PingError PingReply) × List Effect :=
  match validate_buffer data with
  | .error e => (some (.error e), [])
  | .ok _ =>
    match initialize_icmp_handle os with
    | (.error e, eff) => (some (.error e), eff)
    | (.ok _, eff1) =>
      match echo os data timeoutMs options with
      | (.error e, eff2) => (some (.error e), eff1 ++ eff2)
      | (.ok _, eff2) =>
        ((parse_raw_reply_status os.fmt os.rawReply.status).map fun r =>
            r.map fun _ =>
              { address := os.rawReply.address, rtt := os.rawReply.rtt },
          eff1 ++ eff2)

-- Raw-socket (linux) path.

/-- The `std::io` error kinds relevant to the raw-socket path: a
would-block/timed-out receive, or any other OS failure with its code. -/
inductive IoErr where
  | wouldBlock
  | timedOutErr
  | other (code : Nat)
  deriving DecidableEq, Repr

/-- Modelled from the spec: the `From<io::Error> for PingError` conversion
used by the `?` operators in `src/linux_ping/mod.rs` lives in the crate
root, which is not among the provided sources.  Spec §4.5 (sync variant):
a would-block/timeout on the underlying primitive is reported as
`TimedOut`, never as the internal pending signal; other platform failures
are `OsError` (§7). -/
def io_error_to_ping_error : IoErr → PingError
  | .wouldBlock => .TimedOut
  | .timedOutErr => .TimedOut
  | .other code => .OsError code "I/O error"

/-- Oracle for the socket calls of `src/linux_ping/mod.rs`: the process id,
the outcome of each socket2 call, the bytes visible in the receive buffer,
the timestamp bytes captured at send time, the round-trip arithmetic
result (the `f64` clock is abstracted), and the TTL the OS gives a fresh
socket before any `set_ttl`. -/
structure LinuxOS where
  processId : Nat
  createSocket : Except IoErr Unit
  ttlSetResult : Except IoErr Unit
  readTimeoutResult : Except IoErr Unit
  nonblockingResult : Except IoErr Unit
  sendResult : Except IoErr Nat
  recvResult : Except IoErr (Nat × Nat)
  recvBuffer : List Nat
  tsBytes : List Nat
  rttComputed : Nat
  osDefaultTtl : Nat

/-- `PingContext` from `src/linux_ping/mod.rs` lines 48-56.  The socket is
represented by the TTL it would transmit with (`socketTtl`). -/
structure PingContext where
  ident : Nat
  sequence : Nat
  destination : Nat
  payload : List Nat
  socketTtl : Nat
  deriving DecidableEq, Repr

/-- `validate_timeout` from `src/linux_ping/mod.rs` lines 43-46.  Rust's
`Duration` is unsigned, so `timeout.le(&Duration::ZERO)` holds exactly for
the zero timeout. -/
def validate_timeout (timeout : Nat) : Except PingError Nat :=
  if timeout ≤ 0 then .error (.BadParameter "timeout") else .ok timeout

/-- `PingContext::new::<P>` from `src/linux_ping/mod.rs` lines 60-74:
validate the timeout, encode the payload, create the socket, apply the TTL
only when options are present, set the receive timeout, and seed the
context with the process id as identifier and sequence 0. -/
def PingContext.new (os : LinuxOS) (reqType reqCode : Nat) (addr : Nat)
    (timeout : Nat) (data : List Nat) (options : Option PingOptions) :
    Except PingError PingContext × List Effect :=
  match validate_timeout timeout with
  | .error e => (.error e, [])
  | .ok timeout =>
    match make_data reqType reqCode data with
    | .error e => (.error e, [])
    | .ok payload =>
      match os.createSocket with
      | .error e => (.error (io_error_to_ping_error e), [])
      | .ok _ =>
        let afterTtl : Except PingError Nat × List Effect :=
          match options with
          | some o =>
            match os.ttlSetResult with
            | .error e =>
              (.error (io_error_to_ping_error e), [.socketCreated])
            | .ok _ => (.ok o.ttl, [.socketCreated, .ttlSet o.ttl])
          | none => (.ok os.osDefaultTtl, [.socketCreated])
        match afterTtl with
        | (.error e, eff) => (.error e, eff)
        | (.ok ttl, eff) =>
          match os.readTimeoutResult with
          | .error e => (.error (io_error_to_ping_error e), eff)
          | .ok _ =>
            (.ok { ident := os.processId % 65536, sequence := 0,
                   destination := addr, payload := payload,
                   socketTtl := ttl },
              eff ++ [.readTimeoutSet timeout])

/-- `PingContext::ping` from `src/linux_ping/mod.rs` lines 76-84: increment
the 16-bit sequence number, stamp the request data, and send the packet;
`none` models the `assert_eq!(sent, payload.len())` panic. -/
def PingContext.ping (os : LinuxOS) (ctx : PingContext) :
    Option (Except PingError PingContext) × List Effect :=
  let seq := (ctx.sequence + 1) % 65536
  let payload := set_request_data ctx.payload ctx.ident seq os.tsBytes
  let ctx := { ctx with sequence := seq, payload := payload }
  match os.sendResult with
  | .error e => (some (.error (io_error_to_ping_error e)), [])
  | .ok sent =>
    if sent = ctx.payload.length then
      (some (.ok ctx), [.packetSent ctx.payload])
    else (none, [.packetSent ctx.payload])

/-- `wait_reply::<P>` from `src/linux_ping/mod.rs` lines 87-104: receive
into the fixed MTU buffer, decode via the live type/code check, and build
the reply from the source address and the timestamp arithmetic. -/
def linux_wait_reply (os : LinuxOS) (replyType replyCode : Nat) :
    Except PingError PingReply :=
  match os.recvResult with
  | .error e => .error (io_error_to_ping_error e)
  | .ok (_, addr) =>
    match wait_reply_decode replyType replyCode os.recvBuffer with
    | .error e => .error e
    | .ok _ => .ok { address := addr, rtt := os.rttComputed }

/-- `send_ping` from `src/linux_ping/mod.rs` lines 22-29: build the
context, send one echo, and wait for the reply on the caller's thread. -/
def linux_send_ping (os : LinuxOS) (reqType reqCode replyType replyCode : Nat)
    (addr timeout : Nat) (data : List Nat) (options : Option PingOptions) :
    Option (Except PingError PingReply) × List Effect :=
  match PingContext.new os reqType reqCode addr timeout data options with
  | (.error e, eff) => (some (.error e), eff)
  | (.ok ctx, eff1) =>
    match PingContext.ping os ctx with
    | (none, eff2) => (none, eff1 ++ eff2)
    | (some (.error e), eff2) => (some (.error e), eff1 ++ eff2)
    | (some (.ok _), eff2) =>
      (some (linux_wait_reply os replyType replyCode), eff1 ++ eff2)

/-- The setup part of `send_ping_async` from `src/linux_ping/mod.rs` lines
31-39: build the context, switch the socket to non-blocking, and send the
echo, before the future is first polled. -/
def linux_send_ping_async_setup (os : LinuxOS)
    (reqType reqCode : Nat) (addr timeout : Nat) (data : List Nat)
    (options : Option PingOptions) :
    Option (Except PingError Unit) × List Effect :=
  match PingContext.new os reqType reqCode addr timeout data options with
  | (.error e, eff) => (some (.error e), eff)
  | (.ok ctx, eff1) =>
    match os.nonblockingResult with
    | .error e =>
      (some (.error (io_error_to_ping_error e)), eff1 ++ [.nonblockingSet])
    | .ok _ =>
      match PingContext.ping os ctx with
      | (none, eff2) => (none, eff1 ++ [.nonblockingSet] ++ eff2)
      | (some (.error e), eff2) =>
        (some (.error e), eff1 ++ [.nonblockingSet] ++ eff2)
      | (some (.ok _), eff2) =>
        (some (.ok ()), eff1 ++ [.nonblockingSet] ++ eff2)

/-- The outcome of one `Future::poll` call. -/
inductive PollRes where
  | pending
  | ready (r : Except PingError PingReply)
  deriving Repr

/-- `PingFuture::poll` from `src/linux_ping/mod.rs` lines 111-126, as a
function of the `wait_reply` result it observes: the internal `IoPending`
becomes a suspension, everything else is returned ready. -/
def ping_future_poll (reply : Except PingError PingReply) : PollRes :=
  match reply with
  | .error .IoPending => .pending
  | r => .ready r

-- Single-flight worker guard of `src/linux_ping/ping_future.rs`.

/-- The shared state of one asynchronous raw-socket operation: the
`started: AtomicBool` of `PollerContext` plus the number of worker threads
currently running for it. -/
structure PollerState where
  started : Bool
  workers : Nat
  deriving DecidableEq, Repr

/-- The atomic events of `PingFuture::start_poller`
(`src/linux_ping/ping_future.rs` lines 65-78) and of the worker body:
a poll whose `compare_exchange(false, true)` succeeds spawns a worker; a
poll that finds the flag already set spawns nothing; a worker's final
`started.store(false)` ends that worker. -/
inductive PollerStep : PollerState → PollerState → Prop where
  | spawn (s : PollerState) : s.started = false →
      PollerStep s { started := true, workers := s.workers + 1 }
  | skip (s : PollerState) : s.started = true → PollerStep s s
  | finish (s : PollerState) : 0 < s.workers →
      PollerStep s { started := false, workers := s.workers - 1 }

/-- A fresh `PollerContext` (`PollerContext::new`): flag clear, no worker. -/
def pollerInit : PollerState := { started := false, workers := 0 }

/-- States reachable by any interleaving of polls and worker exits. -/
def PollerReachable (s : PollerState) : Prop :=
  Relation.ReflTransGen PollerStep pollerInit s

-- Repeated pings through one context (claim C7).

/-- `ping` applied `n` times to a context, propagating the panic and error
cases of each call. -/
def context_after (os : LinuxOS) (ctx : PingContext) : Nat → Option PingContext
  | 0 => some ctx
  | n + 1 =>
    match context_after os ctx n with
    | none => none
    | some c =>
      match (PingContext.ping os c).1 with
      | some (.ok c2) => some c2
      | _ => none

/-- An oracle on which every socket call succeeds; the send always reports
16 bytes written, matching the 16-byte buffer of an empty payload. -/
def osSeq : LinuxOS :=
  { processId := 4242
    createSocket := .ok ()
    ttlSetResult := .ok ()
    readTimeoutResult := .ok ()
    nonblockingResult := .ok ()
    sendResult := .ok 16
    recvResult := .ok (1500, 7)
    recvBuffer := List.replicate MTU 0
    tsBytes := List.replicate 8 0
    rttComputed := 0
    osDefaultTtl := 64 }

/-- The context `PingContext::new` builds on `osSeq` for an empty payload
without options: process-id identifier, sequence 0, encoded 16-byte
header, and the socket left at the OS default TTL. -/
def ctx0 : PingContext :=
  { ident := 4242
    sequence := 0
    destination := 0
    payload := (make_data 8 0 []).toOption.getD []
    socketTtl := 64 }

/-- A Win32 oracle on which handle creation and the native send succeed
and the reply decodes with status 0, source address 9 and RTT 3. -/
def osWin : WinOS :=
  { createFile := .ok ()
    sendResult := 1
    lastError := 0
    rawReply := { address := 9, status := 0, rtt := 3 }
    fmt := fun _ => none }

/-- Whether an orchestrator outcome is the `BadParameter("timeout")`
failure (used to show the native path never produces it). -/
def is_bad_timeout : Option (Except PingError PingReply) → Bool
  | some (.error (.BadParameter r)) => r == "timeout"
  | _ => false

/-- Whether an orchestrator outcome surfaces the internal `IoPending`
signal. -/
def is_io_pending_result : Option (Except PingError PingReply) → Bool
  | some (.error .IoPending) => true
  | _ => false

/-- Whether a poll outcome hands the internal `IoPending` signal to the
caller as a ready result. -/
def is_ready_io_pending : PollRes → Bool
  | .ready (.error .IoPending) => true
  | _ => false

/-- Whether an error value is the internal `IoPending` signal. -/
def err_is_pending : PingError → Bool
  | .IoPending => true
  | _ => false

-- Theorems.  First, supporting lemmas.

theorem fold16Go_congr :
    ∀ s f1 f2, s ≤ f1 → s ≤ f2 → fold16Go f1 s = fold16Go f2 s := by
  intro s
  induction s using Nat.strong_induction_on with
  | _ s ih =>
    intro f1 f2 h1 h2
    match s, f1, f2 with
    | 0, f1, f2 =>
      cases f1 <;> cases f2 <;> rfl
    | s + 1, f1 + 1, f2 + 1 =>
      simp only [fold16Go]
      by_cases hs : s + 1 < 65536
      · simp [hs]
      · simp only [hs, if_false]
        have hlt : (s + 1) % 65536 + (s + 1) / 65536 < s + 1 := by omega
        exact ih _ hlt _ _ (by omega) (by omega)

/-- `fold16` satisfies the equation of the `while (sum >> 16) > 0` loop in
`write_checksum`: the explicit iteration bound in `fold16Go` is
invisible. -/
theorem fold16_loop (sum : Nat) :
    fold16 sum =
      if sum < 65536 then sum
      else fold16 (sum % 65536 + sum / 65536) := by
  by_cases h : sum < 65536
  · simp only [h, if_true]
    unfold fold16
    match sum with
    | 0 => rfl
    | s + 1 => simp [fold16Go, h]
  · simp only [h, if_false]
    unfold fold16
    match sum, h with
    | s + 1, h =>
      simp only [fold16Go]
      have hs : ¬ (s + 1 < 65536) := h
      simp only [hs, if_false]
      have hlt : (s + 1) % 65536 + (s + 1) / 65536 < s + 1 := by omega
      exact fold16Go_congr _ _ _ (by omega) (by omega)

/-- Claim C1: the spec requires the transmitted checksum to be computed
with the checksum field zeroed, so that folding the 16-bit one's-complement
sum over the final buffer (checksum in place) gives `0xFFFF`.  The claim is
right and the code is wrong: `make_data` alone produces a valid buffer
(second conjunct, fold `0xFFFF`), but `set_request_data` recomputes the
checksum with the stale `make_data` checksum still in the field, so the
buffer actually sent fails verification — for the empty payload with
identifier 4660, sequence 1 and a zero timestamp the fold is `0x0800`, not
`0xFFFF`. -/
theorem C1_checksum_recomputed_over_stale_field :
    ((make_data 8 0 []).map fun b =>
        verifyFold (set_request_data b 4660 1 (List.replicate 8 0))) =
      .ok 2048
    ∧ ((make_data 8 0 []).map fun b => verifyFold b) = .ok 65535
    ∧ decide ((2048 : Nat) = 65535) = false :=
  ⟨rfl, rfl, rfl⟩

set_option maxRecDepth 100000 in
/-- Claim C2 counterexample: an all-zero 1500-byte receive buffer is not a
valid v4 reply — its outer IP header has version nibble 0 and protocol 0,
and the unused validator `ipv4_get_reply_header` rejects it with
`IpError(BadHeader)` — yet the decode step `wait_reply` actually performs
accepts it, because the outer-header validation is commented out and only
the echo type/code bytes (0/0, which match the v4 reply values) are
checked. -/
theorem C2_outer_header_not_validated :
    wait_reply_decode 0 0 (List.replicate MTU 0) =
      .ok { rtype := 0, code := 0, checksum := 0, ident := 0, seq := 0,
            tsBytes := List.replicate 8 0 }
    ∧ ipv4_get_reply_header (List.replicate MTU 0) =
        .error (.IpError IpStatus.BadHeader) :=
  ⟨rfl, rfl⟩

/-- Claim C2 as amended: the reply decode performed by `wait_reply` checks
only that the first two bytes of the receive buffer equal the family's
expected echo reply type and code, failing with `IpError(BadHeader)`
exactly on a type/code mismatch (and `IpError(BadHeader)` is its only
error); the minimum-length and outer-IPv4-header validations exist in
`get_reply_header` but are not invoked. -/
theorem C2_decode_checks_only_type_code (replyType replyCode : Nat)
    (buf : List Nat) (_hlen : buf.length = MTU) :
    (wait_reply_decode replyType replyCode buf =
        .error (.IpError IpStatus.BadHeader)
      ↔ buf.getD 0 0 ≠ replyType ∨ buf.getD 1 0 ≠ replyCode)
    ∧ ∀ e, wait_reply_decode replyType replyCode buf = .error e →
        e = .IpError IpStatus.BadHeader := by
  have hdec :
      wait_reply_decode replyType replyCode buf =
        if buf.getD 0 0 ≠ replyType ∨ buf.getD 1 0 ≠ replyCode then
          .error (.IpError IpStatus.BadHeader)
        else .ok (IcmpEchoHeader.get_ref buf) := rfl
  constructor
  · by_cases h : buf.getD 0 0 ≠ replyType ∨ buf.getD 1 0 ≠ replyCode
    · rw [hdec, if_pos h]
      exact iff_of_true rfl h
    · rw [hdec, if_neg h]
      exact iff_of_false (by simp) h
  · intro e he
    rw [hdec] at he
    by_cases h : buf.getD 0 0 ≠ replyType ∨ buf.getD 1 0 ≠ replyCode
    · rw [if_pos h] at he
      simpa using he.symm
    · rw [if_neg h] at he
      simp at he

set_option maxRecDepth 100000 in
/-- Witness for C2: a buffer whose first byte is not the v6 reply type 129
makes the live decode fail with `IpError(BadHeader)`. -/
theorem C2_decode_checks_only_type_code_witness :
    wait_reply_decode 129 0 (List.replicate MTU 0) =
      .error (.IpError IpStatus.BadHeader) :=
  (C2_decode_checks_only_type_code 129 0 (List.replicate MTU 0)
      (by simp only [List.length_replicate])).1.mpr (Or.inl (by decide))

/-- Claim C3: the reply classifier returns success exactly for status 0; a
nonzero status below 11000 yields `OsError(status, message)` where the
message falls back to `"Ping failed (<code>)"` when the system-message
facility resolves nothing; a status at or above 11000 yields
`IpError(status)`. -/
theorem C3_classifier_contract (fmt : Nat → Option String) (status : Nat) :
    (parse_raw_reply_status fmt status = some (.ok ()) ↔ status = 0)
    ∧ (status ≠ 0 → status < IP_STATUS_BASE →
        parse_raw_reply_status fmt status =
          some (.error (.OsError status
            ((fmt status).getD ("Ping failed (" ++ toString status ++ ")")))))
    ∧ (IP_STATUS_BASE ≤ status →
        parse_raw_reply_status fmt status =
          some (.error (.IpError status))) := by
  refine ⟨?_, ?_, ?_⟩
  · constructor
    · intro h
      by_contra hs
      rw [parse_raw_reply_status, if_neg hs] at h
      rw [ping_reply_error] at h
      by_cases hb : status < IP_STATUS_BASE
      · rw [if_pos hb] at h
        simp at h
      · rw [if_neg hb] at h
        simp only [if_neg hs] at h
        simp at h
    · intro h
      rw [parse_raw_reply_status, if_pos h]
  · intro hs hb
    rw [parse_raw_reply_status, if_neg hs, ping_reply_error, if_pos hb]
    cases hf : fmt status <;> simp [hf]
  · intro hb
    have hs : status ≠ 0 := by
      intro h
      rw [h] at hb
      simp [IP_STATUS_BASE] at hb
    have hb' : ¬ status < IP_STATUS_BASE := not_lt.mpr hb
    rw [parse_raw_reply_status, if_neg hs, ping_reply_error, if_neg hb']
    simp only [if_neg hs]
    rw [ping_reply_error, if_neg hb']

/-- Witness for C3: status 0 is success, a nonzero sub-11000 status with an
unresolvable system message carries the synthesized text, and status 11010
is classified as `IpError`. -/
theorem C3_classifier_contract_witness :
    parse_raw_reply_status (fun _ => none) 0 = some (.ok ())
    ∧ parse_raw_reply_status (fun _ => none) 5 =
        some (.error (.OsError 5 ("Ping failed (" ++ toString (5 : Nat) ++ ")")))
    ∧ parse_raw_reply_status (fun _ => none) 11010 =
        some (.error (.IpError 11010)) := by
  refine ⟨(C3_classifier_contract (fun _ => none) 0).1.mpr rfl, ?_, ?_⟩
  · have h := (C3_classifier_contract (fun _ => none) 5).2.1
      (by norm_num) (by norm_num [IP_STATUS_BASE])
    simpa using h
  · exact (C3_classifier_contract (fun _ => none) 11010).2.2
      (by norm_num [IP_STATUS_BASE])

/-- Claim C10: `ping_reply_error` only ever returns the `OsError` or
`IpError` variants, so the `panic!("Dev bug!")` branch of
`parse_raw_reply_status` (modelled as the `none` outcome) is unreachable:
the classifier always produces a result. -/
theorem C10_classifier_never_panics (fmt : Nat → Option String)
    (status : Nat) :
    ((∃ c m, ping_reply_error fmt status = .OsError c m)
      ∨ ∃ v, ping_reply_error fmt status = .IpError v)
    ∧ (parse_raw_reply_status fmt status).isSome = true := by
  constructor
  · rw [ping_reply_error]
    by_cases hb : status < IP_STATUS_BASE
    · rw [if_pos hb]
      exact Or.inl ⟨status, _, rfl⟩
    · rw [if_neg hb]
      exact Or.inr ⟨status, rfl⟩
  · rw [parse_raw_reply_status]
    by_cases hs : status = 0
    · rw [if_pos hs]
      rfl
    · rw [if_neg hs, ping_reply_error]
      by_cases hb : status < IP_STATUS_BASE
      · rw [if_pos hb]
        rfl
      · rw [if_neg hb]
        simp only [if_neg hs]
        rfl

theorem poller_invariant (s : PollerState) (h : PollerReachable s) :
    s.workers ≤ 1 ∧ (s.started = false → s.workers = 0) := by
  induction h with
  | refl => exact ⟨Nat.zero_le 1, fun _ => rfl⟩
  | tail h1 h2 ih =>
    cases h2 with
    | spawn ht =>
      have h0 := ih.2 ht
      refine ⟨by dsimp only; omega, ?_⟩
      intro hh
      exact absurd hh (by simp)
    | skip ht => exact ih
    | finish ht =>
      have hb := ih.1
      exact ⟨by dsimp only; omega, by intro _; dsimp only; omega⟩

/-- Claim C9: any reachable state of the single-flight guard in
`PingFuture::start_poller` has at most one worker thread running — the
`compare_exchange` on `started` prevents a second concurrent worker for the
same operation, however many continuations poll it. -/
theorem C9_single_flight (s : PollerState) (h : PollerReachable s) :
    s.workers ≤ 1 :=
  (poller_invariant s h).1

/-- Witness for C9: the state after one successful poll (flag set, one
worker) is reachable and satisfies the bound. -/
theorem C9_single_flight_witness :
    ({ started := true, workers := 1 } : PollerState).workers ≤ 1 :=
  C9_single_flight { started := true, workers := 1 }
    (Relation.ReflTransGen.single (PollerStep.spawn pollerInit rfl))

/-- Claim C4 counterexample: on the native path, `send_ping` with timeout 0
(and an OS on which every call succeeds) does not fail with
`BadParameter("timeout")` — it runs to completion — and it creates the OS
handle.  The timeout is never validated on this path. -/
theorem C4_native_path_skips_timeout_validation :
    (windows_send_ping osWin 0 [] none).1 =
      some (.ok { address := 9, rtt := 3 })
    ∧ is_bad_timeout (windows_send_ping osWin 0 [] none).1 = false
    ∧ (windows_send_ping osWin 0 [] none).2.contains .handleCreated = true :=
  ⟨rfl, rfl, rfl⟩

/-- Claim C4 as amended: on the raw-socket path a zero timeout (negative
timeouts are not representable by the unsigned `Duration`) makes both
`send_ping` and the `send_ping_async` setup fail with
`BadParameter("timeout")` before any socket is created (empty effect
trace); the native path performs no timeout validation. -/
theorem C4_zero_timeout_rejected_on_raw_socket_path
    (os : LinuxOS) (rT rC rpT rpC addr : Nat) (data : List Nat)
    (options : Option PingOptions) :
    linux_send_ping os rT rC rpT rpC addr 0 data options =
      (some (.error (.BadParameter "timeout")), [])
    ∧ linux_send_ping_async_setup os rT rC addr 0 data options =
      (some (.error (.BadParameter "timeout")), []) :=
  ⟨rfl, rfl⟩

theorem windows_send_ping_oversize (os : WinOS) (t : Nat) (data : List Nat)
    (options : Option PingOptions) (hd : data.length > MAX_BUFFER_SIZE) :
    windows_send_ping os t data options =
      (some (.error (.BadParameter "buffer")), []) := by
  unfold windows_send_ping validate_buffer
  rw [if_pos hd]

/-- Claim C5 counterexample: on the native path a payload one byte past the
65500-byte ceiling is rejected with `BadParameter("buffer")`, not with
`DataSizeTooBig` carrying the ceiling as the claim states. -/
theorem C5_native_oversize_is_bad_parameter :
    windows_send_ping osWin 1000 (List.replicate 65501 0) none =
      (some (.error (.BadParameter "buffer")), [])
    ∧ decide (PingError.BadParameter "buffer" =
        PingError.DataSizeTooBig 65500) = false :=
  ⟨windows_send_ping_oversize osWin 1000 (List.replicate 65501 0) none
      (by rw [List.length_replicate]; norm_num [MAX_BUFFER_SIZE]),
   rfl⟩

/-- Claim C5 as amended: an oversized payload never reaches the transport
on either path (empty effect trace), but the two paths report it
differently — the raw-socket path fails with `DataSizeTooBig(24)` for
payloads above the 24-byte token ceiling, while the native path fails with
`BadParameter("buffer")` (not `DataSizeTooBig`) for payloads above 65500
bytes. -/
theorem C5_oversize_rejected_before_transport :
    (∀ (os : LinuxOS) (rT rC rpT rpC addr t : Nat) (data : List Nat)
        (options : Option PingOptions), t ≠ 0 → data.length > TOKEN_SIZE →
        linux_send_ping os rT rC rpT rpC addr t data options =
          (some (.error (.DataSizeTooBig TOKEN_SIZE)), [])
        ∧ linux_send_ping_async_setup os rT rC addr t data options =
          (some (.error (.DataSizeTooBig TOKEN_SIZE)), []))
    ∧ ∀ (os : WinOS) (t : Nat) (data : List Nat)
        (options : Option PingOptions), data.length > MAX_BUFFER_SIZE →
        windows_send_ping os t data options =
          (some (.error (.BadParameter "buffer")), []) := by
  constructor
  · intro os rT rC rpT rpC addr t data options ht hd
    have hv : validate_timeout t = .ok t := by
      rw [validate_timeout, if_neg (by omega)]
    have hm : make_data rT rC data = .error (.DataSizeTooBig TOKEN_SIZE) := by
      rw [make_data, if_pos hd]
    constructor
    · simp only [linux_send_ping, PingContext.new, hv, hm]
    · simp only [linux_send_ping_async_setup, PingContext.new, hv, hm]
  · exact windows_send_ping_oversize

/-- Witness for C5: a 25-byte payload on the raw-socket path and a
65501-byte payload on the native path are both rejected with an empty
effect trace. -/
theorem C5_oversize_rejected_before_transport_witness :
    linux_send_ping osSeq 8 0 0 0 0 1000 (List.replicate 25 0) none =
      (some (.error (.DataSizeTooBig TOKEN_SIZE)), [])
    ∧ windows_send_ping osWin 1000 (List.replicate 65501 0) none =
      (some (.error (.BadParameter "buffer")), []) :=
  ⟨(C5_oversize_rejected_before_transport.1 osSeq 8 0 0 0 0 1000
      (List.replicate 25 0) none (by norm_num)
      (by rw [List.length_replicate]; norm_num [TOKEN_SIZE])).1,
   C5_oversize_rejected_before_transport.2 osWin 1000
      (List.replicate 65501 0) none
      (by rw [List.length_replicate]; norm_num [MAX_BUFFER_SIZE])⟩

theorem validate_timeout_shape (t : Nat) :
    validate_timeout t = .error (.BadParameter "timeout")
      ∨ validate_timeout t = .ok t := by
  unfold validate_timeout
  split
  · exact Or.inl rfl
  · exact Or.inr rfl

theorem make_data_shape (rT rC : Nat) (d : List Nat) :
    make_data rT rC d = .error (.DataSizeTooBig TOKEN_SIZE)
      ∨ ∃ p, make_data rT rC d = .ok p := by
  unfold make_data
  split
  · exact Or.inl rfl
  · exact Or.inr ⟨_, rfl⟩

theorem conv_not_pending (e : IoErr) :
    err_is_pending (io_error_to_ping_error e) = false := by
  cases e <;> rfl

theorem iip_some_error (e : PingError) :
    is_io_pending_result (some (.error e)) = err_is_pending e := by
  cases e <;> rfl

theorem new_error_not_pending (os : LinuxOS) (rT rC addr t : Nat)
    (data : List Nat) (options : Option PingOptions) (e : PingError)
    (eff : List Effect)
    (h : PingContext.new os rT rC addr t data options = (.error e, eff)) :
    err_is_pending e = false := by
  rcases validate_timeout_shape t with hv | hv
  · simp only [PingContext.new, hv, Prod.mk.injEq, Except.error.injEq] at h
    obtain ⟨he, -⟩ := h
    subst he
    rfl
  · rcases make_data_shape rT rC data with hm | ⟨p, hm⟩
    · simp only [PingContext.new, hv, hm, Prod.mk.injEq,
        Except.error.injEq] at h
      obtain ⟨he, -⟩ := h
      subst he
      rfl
    · rcases h1 : os.createSocket with e1 | u1
      · simp only [PingContext.new, hv, hm, h1, Prod.mk.injEq,
          Except.error.injEq] at h
        obtain ⟨he, -⟩ := h
        subst he
        exact conv_not_pending e1
      · cases options with
        | none =>
          rcases h2 : os.readTimeoutResult with e2 | u2
          · simp only [PingContext.new, hv, hm, h1, h2, Prod.mk.injEq,
              Except.error.injEq] at h
            obtain ⟨he, -⟩ := h
            subst he
            exact conv_not_pending e2
          · simp [PingContext.new, hv, hm, h1, h2] at h
        | some o =>
          rcases h3 : os.ttlSetResult with e3 | u3
          · simp only [PingContext.new, hv, hm, h1, h3, Prod.mk.injEq,
              Except.error.injEq] at h
            obtain ⟨he, -⟩ := h
            subst he
            exact conv_not_pending e3
          · rcases h2 : os.readTimeoutResult with e2 | u2
            · simp only [PingContext.new, hv, hm, h1, h3, h2, Prod.mk.injEq,
                Except.error.injEq] at h
              obtain ⟨he, -⟩ := h
              subst he
              exact conv_not_pending e2
            · simp [PingContext.new, hv, hm, h1, h3, h2] at h

theorem ping_error_not_pending (os : LinuxOS) (ctx : PingContext)
    (e : PingError) (eff : List Effect)
    (h : PingContext.ping os ctx = (some (.error e), eff)) :
    err_is_pending e = false := by
  rcases hs : os.sendResult with es | n
  · simp only [PingContext.ping, hs, Prod.mk.injEq, Option.some.injEq,
      Except.error.injEq] at h
    obtain ⟨he, -⟩ := h
    subst he
    exact conv_not_pending es
  · by_cases hif : n = (set_request_data ctx.payload ctx.ident
        ((ctx.sequence + 1) % 65536) os.tsBytes).length
    · simp [PingContext.ping, hs, hif] at h
    · simp [PingContext.ping, hs, hif] at h

theorem wait_reply_decode_shape (a b : Nat) (buf : List Nat) :
    wait_reply_decode a b buf = .error (.IpError IpStatus.BadHeader)
      ∨ ∃ hh, wait_reply_decode a b buf = .ok hh := by
  have hdec :
      wait_reply_decode a b buf =
        if buf.getD 0 0 ≠ a ∨ buf.getD 1 0 ≠ b then
          .error (.IpError IpStatus.BadHeader)
        else .ok (IcmpEchoHeader.get_ref buf) := rfl
  rw [hdec]
  split
  · exact Or.inl rfl
  · exact Or.inr ⟨_, rfl⟩

theorem wait_reply_not_pending (os : LinuxOS) (rpT rpC : Nat) :
    is_io_pending_result (some (linux_wait_reply os rpT rpC)) = false := by
  rcases hr : os.recvResult with er | pr
  · simp only [linux_wait_reply, hr]
    cases er <;> rfl
  · obtain ⟨sz, addr⟩ := pr
    rcases wait_reply_decode_shape rpT rpC os.recvBuffer with hd | ⟨hh, hd⟩
    · simp only [linux_wait_reply, hr, hd]
      rfl
    · simp only [linux_wait_reply, hr, hd]
      rfl

/-- Claim C6: the internal `IoPending` signal is never the result of the
raw-socket `send_ping` (under the spec-modelled `From<io::Error>`
conversion, which reports would-block/timeout as `TimedOut`), and
`PingFuture::poll` converts an `IoPending` reply into a pending suspension
and never hands `IoPending` to the caller as a ready result. -/
theorem C6_io_pending_never_surfaced :
    (∀ (os : LinuxOS) (rT rC rpT rpC addr t : Nat) (data : List Nat)
        (options : Option PingOptions),
        is_io_pending_result
          (linux_send_ping os rT rC rpT rpC addr t data options).1 = false)
    ∧ ping_future_poll (.error .IoPending) = .pending
    ∧ ∀ r, is_ready_io_pending (ping_future_poll r) = false := by
  refine ⟨?_, rfl, ?_⟩
  · intro os rT rC rpT rpC addr t data options
    rcases hn : PingContext.new os rT rC addr t data options with ⟨rn, effn⟩
    cases rn with
    | error e =>
      have hne := new_error_not_pending os rT rC addr t data options e effn hn
      simp only [linux_send_ping, hn]
      rw [iip_some_error]
      exact hne
    | ok ctx =>
      rcases hp : PingContext.ping os ctx with ⟨rp, effp⟩
      cases rp with
      | none =>
        simp only [linux_send_ping, hn, hp]
        rfl
      | some r =>
        cases r with
        | error e =>
          have hpe := ping_error_not_pending os ctx e effp hp
          simp only [linux_send_ping, hn, hp]
          rw [iip_some_error]
          exact hpe
        | ok c2 =>
          simp only [linux_send_ping, hn, hp]
          exact wait_reply_not_pending os rpT rpC
  · intro r
    cases r with
    | ok v => rfl
    | error e => cases e <;> rfl

/-- Witness for C6: the poll path turns the internal pending signal into a
suspension. -/
theorem C6_io_pending_never_surfaced_witness :
    ping_future_poll (.error .IoPending) = .pending ∧
      is_io_pending_result
        (linux_send_ping osSeq 8 0 0 0 0 1000 [] none).1 = false :=
  ⟨C6_io_pending_never_surfaced.2.1,
   C6_io_pending_never_surfaced.1 osSeq 8 0 0 0 0 1000 [] none⟩

theorem foldl_set_length (idxs : List Nat) (b ts : List Nat) :
    (idxs.foldl (fun b i => b.set (8 + i) (ts.getD i 0)) b).length =
      b.length := by
  induction idxs generalizing b with
  | nil => rfl
  | cons i is ih =>
    simp only [List.foldl_cons]
    rw [ih]
    exact List.length_set b (8 + i) _

theorem setBe16_length (b : List Nat) (off v : Nat) :
    (setBe16 b off v).length = b.length := by
  unfold setBe16
  simp [List.length_set]

theorem write_checksum_length (b : List Nat) :
    (write_checksum b).length = b.length := by
  unfold write_checksum setChecksumBytes
  simp [List.length_set]

theorem set_request_data_length (b : List Nat) (i s : Nat) (ts : List Nat) :
    (set_request_data b i s ts).length = b.length := by
  unfold set_request_data setTimestampBytes
  rw [write_checksum_length, foldl_set_length, setBe16_length, setBe16_length]

theorem ping_osSeq_step (c : PingContext) (hlen : c.payload.length = 16) :
    (PingContext.ping osSeq c).1 =
      some (.ok { c with
                  sequence := (c.sequence + 1) % 65536
                  payload := set_request_data c.payload c.ident
                    ((c.sequence + 1) % 65536) (List.replicate 8 0) }) := by
  have h16 : (set_request_data c.payload c.ident ((c.sequence + 1) % 65536)
      [0, 0, 0, 0, 0, 0, 0, 0]).length = 16 := by
    rw [set_request_data_length, hlen]
  simp [PingContext.ping, osSeq, h16]

theorem context_after_osSeq (n : Nat) :
    ∀ (c : PingContext), c.payload.length = 16 → c.sequence < 65536 →
      ∃ c', context_after osSeq c n = some c'
        ∧ c'.sequence = (c.sequence + n) % 65536
        ∧ c'.payload.length = 16 := by
  induction n with
  | zero =>
    intro c h1 h2
    exact ⟨c, rfl, by omega, h1⟩
  | succ n ih =>
    intro c h1 h2
    obtain ⟨c', hc, hs, hl⟩ := ih c h1 h2
    refine ⟨{ c' with
              sequence := (c'.sequence + 1) % 65536
              payload := set_request_data c'.payload c'.ident
                ((c'.sequence + 1) % 65536) (List.replicate 8 0) },
      ?_, ?_, ?_⟩
    · simp only [context_after, hc, ping_osSeq_step c' hl]
    · dsimp only
      rw [hs]
      omega
    · dsimp only
      rw [set_request_data_length, hl]

/-- Claim C7 counterexample: the sequence counter is a 16-bit field, so the
claim's "sequence numbers 1, 2, …, N with no repeats" fails at N = 65537:
the 65537th ping through one context reuses sequence number 1, the same
value as the first ping. -/
theorem C7_sequence_wraps_at_65536 :
    (context_after osSeq ctx0 65537).map (fun c => c.sequence) = some 1
    ∧ (context_after osSeq ctx0 1).map (fun c => c.sequence) = some 1
    ∧ decide ((65537 : Nat) = 1) = false := by
  refine ⟨?_, ?_, rfl⟩
  · obtain ⟨c', hc, hs, -⟩ :=
      context_after_osSeq 65537 ctx0 rfl (by norm_num [ctx0])
    rw [hc]
    simp only [Option.map_some', Option.some.injEq]
    rw [hs]
    have h0 : ctx0.sequence = 0 := rfl
    rw [h0]
  · obtain ⟨c', hc, hs, -⟩ :=
      context_after_osSeq 1 ctx0 rfl (by norm_num [ctx0])
    rw [hc]
    simp only [Option.map_some', Option.some.injEq]
    rw [hs]
    have h0 : ctx0.sequence = 0 := rfl
    rw [h0]

/-- Claim C7 as amended: within one request context the sequence number
starts at 1 and increases by exactly 1 per ping, so N consecutive pings use
sequence numbers 1, 2, …, N with no repeats for every N up to 65535; the
16-bit counter wraps after 65535 pings. -/
theorem C7_sequence_increments_from_one :
    (PingContext.new osSeq 8 0 0 1000 [] none).1 = .ok ctx0
    ∧ ∀ N k, 1 ≤ k → k ≤ N → N ≤ 65535 →
        (context_after osSeq ctx0 k).map (fun c => c.sequence) = some k := by
  constructor
  · rfl
  · intro N k h1 h2 h3
    obtain ⟨c', hc, hs, -⟩ :=
      context_after_osSeq k ctx0 rfl (by norm_num [ctx0])
    rw [hc]
    simp only [Option.map_some', Option.some.injEq]
    rw [hs]
    have h0 : ctx0.sequence = 0 := rfl
    rw [h0]
    omega

/-- Witness for C7: the third of three consecutive pings through one
context uses sequence number 3. -/
theorem C7_sequence_increments_from_one_witness :
    (context_after osSeq ctx0 3).map (fun c => c.sequence) = some 3 :=
  C7_sequence_increments_from_one.2 5 3 (by norm_num) (by norm_num)
    (by norm_num)

/-- Claim C8 counterexample: on the raw-socket path with options absent,
`PingContext::new` never calls `set_ttl` — the socket keeps the OS default
TTL (64 in this environment), not 128, so the request is not transmitted
with TTL 128. -/
theorem C8_raw_socket_ttl_left_at_os_default :
    (PingContext.new osSeq 8 0 0 1000 [] none).1 = .ok ctx0
    ∧ ctx0.socketTtl = osSeq.osDefaultTtl
    ∧ decide (ctx0.socketTtl = 128) = false
    ∧ (PingContext.new osSeq 8 0 0 1000 [] none).2.contains
        (Effect.ttlSet 128) = false :=
  ⟨rfl, rfl, rfl, rfl⟩

/-- Claim C8 as amended: when options are absent, the native path transmits
with TTL 128 and no don't-fragment flag (flags 0); the raw-socket path
never configures the TTL, leaving the socket at the OS default (and it has
no don't-fragment handling at all). -/
theorem C8_default_options_applied :
    (∀ (os : WinOS) (buffer : List Nat) (t : Nat),
        (echo os buffer t none).2 = [Effect.echoSent 128 0 t buffer])
    ∧ ∀ (os : LinuxOS) (rT rC addr t : Nat) (data : List Nat),
        os.createSocket = .ok () → os.readTimeoutResult = .ok () →
        t ≠ 0 → data.length ≤ TOKEN_SIZE →
        ∃ ctx, PingContext.new os rT rC addr t data none =
            (.ok ctx, [Effect.socketCreated, Effect.readTimeoutSet t])
          ∧ ctx.socketTtl = os.osDefaultTtl := by
  constructor
  · intro os buffer t
    by_cases h : os.sendResult = 0
    · by_cases h2 : os.lastError = ERROR_IO_PENDING
      · simp [echo, h, h2]
      · simp [echo, h, h2]
    · simp [echo, h]
  · intro os rT rC addr t data h1 h2 ht hd
    have hv : validate_timeout t = .ok t := by
      rw [validate_timeout, if_neg (by omega)]
    rcases make_data_shape rT rC data with hm | ⟨p, hm⟩
    · have hnb : ¬ (data.length > TOKEN_SIZE) := by omega
      rw [make_data, if_neg hnb] at hm
      simp at hm
    · refine ⟨{ ident := os.processId % 65536
                sequence := 0
                destination := addr
                payload := p
                socketTtl := os.osDefaultTtl }, ?_, rfl⟩
      simp only [PingContext.new, hv, hm, h1, h2]
      rfl

/-- Witness for C8: a concrete native echo carries TTL 128 and flags 0, and
a concrete raw-socket context creation leaves the OS default TTL. -/
theorem C8_default_options_applied_witness :
    (echo osWin [] 5 none).2 = [Effect.echoSent 128 0 5 []]
    ∧ ∃ ctx, PingContext.new osSeq 8 0 0 1000 [] none =
        (.ok ctx, [Effect.socketCreated, Effect.readTimeoutSet 1000])
      ∧ ctx.socketTtl = osSeq.osDefaultTtl :=
  ⟨C8_default_options_applied.1 osWin [] 5,
   C8_default_options_applied.2 osSeq 8 0 0 1000 [] rfl rfl (by norm_num)
     (by norm_num [TOKEN_SIZE])⟩

end PingRs
